import Mathlib

/-!
Shallow embedding of the Socket.io chat server (src/server/server.js together
with the Mongoose schemas in src/server/models) and proofs about its event
handlers.

Modelling conventions:
- MongoDB collections become Lean lists; the generated ObjectId of a message
  becomes a `Nat` drawn from a `nextId` counter in the database state.
- Mongoose `findOneAndUpdate` without `upsert` updates the first matching
  document; with `upsert: true` it inserts when no document matches.
- Mongoose `Map` fields (`room.users`, `message.reactions`) become association
  lists `List (String × String)` in insertion order; `Object.values` of the
  in-memory `typingUsers` object is the list of values in insertion order.
- Dates become `Nat` instants passed in as a `now` argument.
- Every socket emission is recorded as a `Target × Event` pair, in program
  order.
- Each handler body in the source is wrapped in try/catch around calls to the
  persistent store.  A failing store call raises, control jumps to the catch
  block, and the catch block decides what (if anything) is emitted.  The
  `storeFail` flag models the first store call of the handler failing: the
  database is then unchanged and the output is exactly what the catch block
  emits.
-/

namespace Chat

/-- A persisted chat message, following messageSchema in
src/server/models/Message.js.  `mid` models the generated Mongo `_id`. -/
structure Msg where
  mid : Nat
  sender : String
  senderId : String
  message : String
  room : String
  fileName : Option String
  fileUrl : Option String
  fileType : Option String
  isFile : Bool
  isPrivate : Bool
  recipient : Option String
  delivered : Bool
  read : Bool
  reactions : List (String × String)
  timestamp : Nat
deriving DecidableEq

/-- A user record, following userSchema in src/server/models (User model). -/
structure User where
  socketId : String
  username : String
  currentRoom : String
  isOnline : Bool
  lastSeen : Nat
  unreadCount : Nat
deriving DecidableEq

/-- A room record, following roomSchema in src/server/models (Room model). -/
structure Room where
  roomId : String
  name : String
  description : String
  users : List (String × String)
  messageCount : Nat
  isPrivate : Bool
  createdBy : String
  createdAt : Nat
deriving DecidableEq

/-- The durable state of the three Mongo collections plus the id counter for
newly created messages. -/
structure DB where
  users : List User
  rooms : List Room
  messages : List Msg
  nextId : Nat
deriving DecidableEq

/-- Where an emission goes: one socket, one room channel, everyone, or
everyone except one socket (socket.broadcast.emit). -/
inductive Target
  | toSocket (sid : String)
  | toRoom (roomId : String)
  | toAll
  | toAllExcept (sid : String)
deriving DecidableEq

/-- The outbound events emitted by the handlers in src/server/server.js, one
constructor per event name, carrying the payload fields the code sends. -/
inductive Event
  | userList (users : List User)
  | userJoined (username sid : String)
  | roomList (rooms : List Room)
  | roomJoined (roomId roomName : String)
  | receiveMessage (m : Msg)
  | privateMessageEv (m : Msg)
  | newMessageNotification (text sender : String) (roomId : Option String)
      (isPrivate isFile : Bool)
  | messageDelivered (messageId : Nat)
  | reactionAdded (messageId : Nat) (reaction userId : String)
  | messageReadReceipt (messageId : Nat) (userId : String)
  | typingUsers (names : List String)
  | messagesLoaded (messages : List Msg) (hasMore : Bool)
  | searchResults (messages : List Msg) (q : String)
  | notification (ntype text : String) (roomId : Option String)
  | userLeft (username sid : String)
  | errorEv (text : String)
deriving DecidableEq

/-- One recorded emission. -/
abbrev Emit := Target × Event

/-! ### Association-list helpers for Mongo Map fields -/

/-- Does the map have the key?  Models `users.<sid>` `$exists` checks. -/
def hasKey (m : List (String × String)) (k : String) : Bool :=
  m.any (fun p => p.1 = k)

/-- Model of `$set` of one key of a Map field: overwrite in place, or append. -/
def setKey (m : List (String × String)) (k v : String) :
    List (String × String) :=
  if hasKey m k then m.map (fun p => if p.1 = k then (k, v) else p)
  else m ++ [(k, v)]

/-- Model of `$unset` / `delete` of one key of a Map field. -/
def removeKey (m : List (String × String)) (k : String) :
    List (String × String) :=
  m.filter (fun p => p.1 ≠ k)

/-- Model of `findOneAndUpdate` on a list: rewrite the first element matching `p`. -/
def updateFirst (p : α → Bool) (f : α → α) : List α → List α
  | [] => []
  | x :: xs => if p x then f x :: xs else x :: updateFirst p f xs

/-! ### Sorting and pagination (`.sort(timestamp: -1).skip(o).limit(l)`) -/

/-- Timestamp-descending order used by every message query in the server. -/
def tsDesc (a b : Msg) : Prop := b.timestamp ≤ a.timestamp

instance : DecidableRel tsDesc := fun a b => Nat.decLe b.timestamp a.timestamp

/-- Model of `Message.find(q).sort(timestamp: -1)`. -/
def sortDesc (l : List Msg) : List Msg := List.insertionSort tsDesc l

instance : IsTotal Msg tsDesc :=
  ⟨fun a b => Nat.le_total b.timestamp a.timestamp⟩

instance : IsTrans Msg tsDesc :=
  ⟨fun _ _ _ h1 h2 => Nat.le_trans h2 h1⟩

/-- The filter used by `load_messages`: `roomId ? room: roomId : ` empty
filter (the REST route always filters on its `room` parameter, which the
socket path reaches with `some`). -/
def roomFilter (roomId : Option String) (m : Msg) : Bool :=
  match roomId with
  | some r => m.room = r
  | none => true

/-- Result shape of the pagination read path. -/
structure Page where
  messages : List Msg
  hasMore : Bool
  total : Nat
deriving DecidableEq

/-- The shared pagination computation of the `load_messages` handler and the
`GET /api/messages` route (server.js lines 370-388 and 470-492): filter by
room, sort timestamp-descending, skip `offset`, take `limit`, reverse to
chronological order; `hasMore` is `offset + limit < totalCount`. -/
def page (msgs : List Msg) (roomId : Option String) (offset limit : Nat) :
    Page :=
  let filtered := msgs.filter (roomFilter roomId)
  let sorted := sortDesc filtered
  { messages := ((sorted.drop offset).take limit).reverse
    hasMore := decide (offset + limit < filtered.length)
    total := filtered.length }

/-! ### The `$regex ... $options: i` search filter

The handlers pass the raw query string to the store as an unanchored,
case-insensitive regular expression.  We embed the fragment of that regex
language the development needs: the `.` metacharacter (any character except a
newline) and literal characters.  Patterns using other PCRE metacharacters
are outside the model and no theorem below instantiates one. -/

/-- One parsed pattern token. -/
inductive RTok
  | dot
  | lit (c : Char)
deriving DecidableEq

/-- Parse a pattern string into tokens (fragment: `.` and literals). -/
def parsePattern (q : String) : List RTok :=
  q.data.map (fun c => if c = '.' then RTok.dot else RTok.lit c)

/-- Match the token list against a prefix of the text, case-insensitively
(the `i` option lower-cases both sides; `.` refuses a newline). -/
def tokMatchesAt : List RTok → List Char → Bool
  | [], _ => true
  | _ :: _, [] => false
  | RTok.dot :: ps, c :: cs => (c ≠ '\n') && tokMatchesAt ps cs
  | RTok.lit a :: ps, c :: cs => (a.toLower = c.toLower) && tokMatchesAt ps cs

/-- Unanchored regex search: try to match at every position of the text. -/
def regexSearch (ps : List RTok) : List Char → Bool
  | [] => tokMatchesAt ps []
  | c :: cs => tokMatchesAt ps (c :: cs) || regexSearch ps cs

/-- Model of the filter clause `$regex: q, $options: i` on one string field. -/
def regexTest (q s : String) : Bool :=
  regexSearch (parsePattern q) s.data

/-- The search filter built by `search_messages` / `GET /api/search`:
regex match on text OR sender, optionally an exact room constraint. -/
def searchFilterB (q : String) (roomId : Option String) (m : Msg) : Bool :=
  (regexTest q m.message || regexTest q m.sender) && roomFilter roomId m

/-- Model of `Message.find(searchFilter).sort(timestamp: -1).limit(50)`. -/
def searchQuery (msgs : List Msg) (q : String) (roomId : Option String) :
    List Msg :=
  (sortDesc (msgs.filter (searchFilterB q roomId))).take 50

/-! ### Substring containment, as the spec words the search contract.

These two definitions follow the words of the specification (case-insensitive
substring match), to be compared with the regex-based filter the code
actually builds. -/

/-- Is the first list a prefix of the second, by plain character equality? -/
def startsWithChars : List Char → List Char → Bool
  | [], _ => true
  | _ :: _, [] => false
  | a :: as, b :: bs => (a = b) && startsWithChars as bs

/-- Does the needle occur contiguously anywhere in the haystack? -/
def occursIn (needle : List Char) : List Char → Bool
  | [] => needle.isEmpty
  | c :: cs => startsWithChars needle (c :: cs) || occursIn needle cs

/-- Case-insensitive substring containment, the relation named by the spec
sentence about search. -/
def containsCI (hay needle : String) : Bool :=
  occursIn (needle.data.map Char.toLower) (hay.data.map Char.toLower)

/-- The search result the spec describes: exactly the messages whose text or
sender contains the query as a case-insensitive substring, room-constrained
when requested, timestamp-descending, capped at 50. -/
def specSearch (msgs : List Msg) (q : String) (roomId : Option String) :
    List Msg :=
  (sortDesc (msgs.filter (fun m =>
    (containsCI m.message q || containsCI m.sender q) && roomFilter roomId m))).take 50

/-! ### Event handlers (src/server/server.js, socket.on callbacks) -/

/-- Model of `User.findOne(socketId: ...)` followed by the `?.username` access with
the `Anonymous` fallback used by the message handlers. -/
def usernameOf (db : DB) (sid : String) : String :=
  ((db.users.find? (fun u => u.socketId = sid)).map User.username).getD "Anonymous"

/-- Handler `user_join` (lines 82-122): upsert the user as online in room
general, add it to the general member map, then emit the online-user list and
a join notice to everyone and the room list to the joiner.  Catch block:
`error` with "Failed to join chat". -/
def userJoin (db : DB) (sid username : String) (now : Nat) (storeFail : Bool) :
    DB × List Emit :=
  if storeFail then (db, [(Target.toSocket sid, Event.errorEv "Failed to join chat")])
  else
    let users1 :=
      if db.users.any (fun u => u.socketId = sid) then
        updateFirst (fun u => u.socketId = sid)
          (fun u => { u with username := username, isOnline := true,
                             currentRoom := "general", lastSeen := now }) db.users
      else
        db.users ++ [{ socketId := sid, username := username,
                       currentRoom := "general", isOnline := true,
                       lastSeen := now, unreadCount := 0 }]
    let rooms1 := updateFirst (fun r => r.roomId = "general")
      (fun r => { r with users := setKey r.users sid username }) db.rooms
    let online := users1.filter (fun u => u.isOnline)
    ({ db with users := users1, rooms := rooms1 },
     [(Target.toAll, Event.userList online),
      (Target.toAll, Event.userJoined username sid),
      (Target.toSocket sid, Event.roomList rooms1)])

/-- Handler `send_message` (lines 125-170): persist the message (room
defaulting to general), `$inc` the messageCount of the target room, then
broadcast to the target room (plus per-user notifications to every user whose
currentRoom is that room) or to everyone when no room was given, and confirm
delivery to the sender.  Catch block: `error` with "Failed to send
message". -/
def sendMessage (db : DB) (sid text : String) (room : Option String)
    (now : Nat) (storeFail : Bool) : DB × List Emit :=
  if storeFail then (db, [(Target.toSocket sid, Event.errorEv "Failed to send message")])
  else
    let uname := usernameOf db sid
    let saved : Msg :=
      { mid := db.nextId, sender := uname, senderId := sid, message := text,
        room := room.getD "general", fileName := none, fileUrl := none,
        fileType := none, isFile := false, isPrivate := false,
        recipient := none, delivered := true, read := false, reactions := [],
        timestamp := now }
    let rooms1 := updateFirst (fun r => r.roomId = room.getD "general")
      (fun r => { r with messageCount := r.messageCount + 1 }) db.rooms
    let fanOut : List Emit :=
      match room with
      | some rid =>
          let roomUsers := db.users.filter
            (fun u => u.currentRoom = rid && u.socketId ≠ sid)
          (Target.toRoom rid, Event.receiveMessage saved) ::
            roomUsers.map (fun u =>
              (Target.toSocket u.socketId,
               Event.newMessageNotification (uname ++ ": " ++ text) uname
                 (some rid) false false))
      | none => [(Target.toAll, Event.receiveMessage saved)]
    ({ db with messages := db.messages ++ [saved], rooms := rooms1,
               nextId := db.nextId + 1 },
     fanOut ++ [(Target.toSocket sid, Event.messageDelivered saved.mid)])

/-- The JS whitespace class used by the slug regex of `create_room`
(line 175), restricted to the ASCII members the development uses. -/
def isJsSpace (c : Char) : Bool :=
  c = ' ' || c = '\t' || c = '\n' || c = '\r' || c = '\x0b' || c = '\x0c'

/-- Replace every maximal run of whitespace by a single separator char.
`prevWs` records whether the previous character belonged to a run. -/
def collapseWs (prevWs : Bool) : List Char → List Char
  | [] => []
  | c :: rest =>
      if isJsSpace c then
        (if prevWs then [] else ['-']) ++ collapseWs true rest
      else c :: collapseWs false rest

/-- Room id derivation of `create_room`: lower-case (ASCII, as all inputs in
this development are ASCII), then collapse whitespace runs to `-`. -/
def slugify (name : String) : String :=
  String.mk (collapseWs false (name.data.map Char.toLower))

/-- Handler `create_room` (lines 173-200): derive the slug; when no room with
that id exists, create it and broadcast the refreshed room list and a
creation notice to everyone; when it exists, do nothing at all.  Catch block:
`error` with "Failed to create room". -/
def createRoom (db : DB) (sid roomName : String) (now : Nat)
    (storeFail : Bool) : DB × List Emit :=
  if storeFail then (db, [(Target.toSocket sid, Event.errorEv "Failed to create room")])
  else
    let roomId := slugify roomName
    match db.rooms.find? (fun r => r.roomId = roomId) with
    | some _ => (db, [])
    | none =>
        let rooms1 := db.rooms ++
          [{ roomId := roomId, name := roomName, description := "",
             users := [], messageCount := 0, isPrivate := false,
             createdBy := sid, createdAt := now }]
        ({ db with rooms := rooms1 },
         [(Target.toAll, Event.roomList rooms1),
          (Target.toAll, Event.notification "room_created"
            ("New room created: " ++ roomName) (some roomId))])

/-- Remove the socket from the member map of one room, as the leave loop of
`join_room` does to every room where `users.<sid>` exists. -/
def stripMember (sid : String) (r : Room) : Room :=
  if hasKey r.users sid then { r with users := removeKey r.users sid } else r

/-- Handler `join_room` (lines 203-246): first `$unset` the socket from the
member map of every room where it is present and set the user currentRoom to
the requested id; then, only if a room with that id exists, add the socket to
its member map (Mongoose drops a `$set` to undefined, so nothing is set when
the user record is missing), confirm `room_joined` to the joiner and notify
the room.  A missing room produces no emission at all.  Catch block: `error`
with "Failed to join room". -/
def joinRoom (db : DB) (sid roomId : String) (storeFail : Bool) :
    DB × List Emit :=
  if storeFail then (db, [(Target.toSocket sid, Event.errorEv "Failed to join room")])
  else
    let rooms1 := db.rooms.map (stripMember sid)
    let users1 := updateFirst (fun u => u.socketId = sid)
      (fun u => { u with currentRoom := roomId }) db.users
    match rooms1.find? (fun r => r.roomId = roomId) with
    | none => ({ db with rooms := rooms1, users := users1 }, [])
    | some room =>
        let rooms2 :=
          match users1.find? (fun u => u.socketId = sid) with
          | some u => updateFirst (fun r => r.roomId = roomId)
              (fun r => { r with users := setKey r.users sid u.username }) rooms1
          | none => rooms1
        ({ db with rooms := rooms2, users := users1 },
         [(Target.toSocket sid, Event.roomJoined roomId room.name),
          (Target.toRoom roomId, Event.notification "user_joined_room"
            "User joined the room" (some roomId))])

/-- Handler `typing` (lines 249-265): look the user up; silently do nothing
when unbound; otherwise add or remove the in-memory typing entry and
broadcast the full value list.  Catch block: log only, no emission. -/
def typingH (db : DB) (typing : List (String × String)) (sid : String)
    (isTyping : Bool) (storeFail : Bool) :
    List (String × String) × List Emit :=
  if storeFail then (typing, [])
  else
    match db.users.find? (fun u => u.socketId = sid) with
    | none => (typing, [])
    | some u =>
        let typing1 :=
          if isTyping then setKey typing sid u.username
          else removeKey typing sid
        (typing1, [(Target.toAll, Event.typingUsers (typing1.map Prod.snd))])

/-- Handler `private_message` (lines 268-299): persist with `isPrivate` and
`recipient` set and no `room` key, so the schema default "general" applies;
deliver to recipient and sender, notify the recipient, confirm delivery.
Catch block: `error` with "Failed to send private message". -/
def privateMessage (db : DB) (sid toSid text : String) (now : Nat)
    (storeFail : Bool) : DB × List Emit :=
  if storeFail then
    (db, [(Target.toSocket sid, Event.errorEv "Failed to send private message")])
  else
    let uname := usernameOf db sid
    let saved : Msg :=
      { mid := db.nextId, sender := uname, senderId := sid, message := text,
        room := "general", fileName := none, fileUrl := none, fileType := none,
        isFile := false, isPrivate := true, recipient := some toSid,
        delivered := true, read := false, reactions := [], timestamp := now }
    ({ db with messages := db.messages ++ [saved], nextId := db.nextId + 1 },
     [(Target.toSocket toSid, Event.privateMessageEv saved),
      (Target.toSocket sid, Event.privateMessageEv saved),
      (Target.toSocket toSid, Event.newMessageNotification
        ("Private message from " ++ uname ++ ": " ++ text) uname none true false),
      (Target.toSocket sid, Event.messageDelivered saved.mid)])

/-- Handler `add_reaction` (lines 302-314): `findByIdAndUpdate` `$set`s the
reaction key on the identified message (no-op when the id matches nothing),
then broadcasts `reaction_added` to everyone regardless.  Catch block: log
only, no emission. -/
def addReaction (db : DB) (sid : String) (messageId : Nat) (reaction : String)
    (storeFail : Bool) : DB × List Emit :=
  if storeFail then (db, [])
  else
    let msgs1 := updateFirst (fun m => m.mid = messageId)
      (fun m => { m with reactions := setKey m.reactions sid reaction })
      db.messages
    ({ db with messages := msgs1 },
     [(Target.toAll, Event.reactionAdded messageId reaction sid)])

/-- Handler `message_read` (lines 317-328): set `read` on the identified
message (no-op when absent), then broadcast a receipt to everyone but the
reader.  Catch block: log only, no emission. -/
def messageRead (db : DB) (sid : String) (messageId : Nat)
    (storeFail : Bool) : DB × List Emit :=
  if storeFail then (db, [])
  else
    let msgs1 := updateFirst (fun m => m.mid = messageId)
      (fun m => { m with read := true }) db.messages
    ({ db with messages := msgs1 },
     [(Target.toAllExcept sid, Event.messageReadReceipt messageId sid)])

/-- Model of `Object.keys(io.sockets.sockets)` (line 352).  In Socket.IO v3+ (the
`new Server(server, cors: ...)` API this server uses) `io.sockets.sockets`
is a JS `Map`.  `Object.keys` returns the own enumerable string-keyed
properties of its argument; a `Map` stores its entries in internal slots,
not as properties, so `Object.keys` of any `Map` is the empty array.  The
argument records the map entries (socket id to socket) only to document what
the code had in hand. -/
def jsObjectKeysOfMap (_entries : List (String × String)) : List String := []

/-- Handler `share_file` (lines 331-367): persist the file message (room
defaulting to general, no messageCount update), broadcast `receive_message`
to everyone, then walk `Object.keys(io.sockets.sockets)` emitting a
notification to every id but the sender, and confirm delivery.  Catch block:
`error` with "Failed to share file". -/
def shareFile (db : DB) (sid : String) (sockets : List (String × String))
    (fname furl ftype : String) (room : Option String) (now : Nat)
    (storeFail : Bool) : DB × List Emit :=
  if storeFail then (db, [(Target.toSocket sid, Event.errorEv "Failed to share file")])
  else
    let uname := usernameOf db sid
    let saved : Msg :=
      { mid := db.nextId, sender := uname, senderId := sid, message := "",
        room := room.getD "general", fileName := some fname,
        fileUrl := some furl, fileType := some ftype, isFile := true,
        isPrivate := false, recipient := none, delivered := true,
        read := false, reactions := [], timestamp := now }
    let notifTargets := (jsObjectKeysOfMap sockets).filter (fun k => k ≠ sid)
    ({ db with messages := db.messages ++ [saved], nextId := db.nextId + 1 },
     (Target.toAll, Event.receiveMessage saved) ::
       notifTargets.map (fun uid =>
         (Target.toSocket uid, Event.newMessageNotification
           (uname ++ " shared a file: " ++ fname) uname none false true)) ++
       [(Target.toSocket sid, Event.messageDelivered saved.mid)])

/-- Handler `load_messages` (lines 370-388): run the shared pagination and
reply `messages_loaded` to the requester only.  Catch block: `error` with
"Failed to load messages". -/
def loadMessages (db : DB) (sid : String) (offset limit : Nat)
    (roomId : Option String) (storeFail : Bool) : List Emit :=
  if storeFail then [(Target.toSocket sid, Event.errorEv "Failed to load messages")]
  else
    let p := page db.messages roomId offset limit
    [(Target.toSocket sid, Event.messagesLoaded p.messages p.hasMore)]

/-- Handler `search_messages` (lines 391-416): run the regex search and reply
`search_results` to the requester only.  Catch block: `error` with "Failed to
search messages". -/
def searchMessages (db : DB) (sid q : String) (roomId : Option String)
    (storeFail : Bool) : List Emit :=
  if storeFail then [(Target.toSocket sid, Event.errorEv "Failed to search messages")]
  else
    [(Target.toSocket sid,
      Event.searchResults (searchQuery db.messages q roomId) q)]

/-- Handler `disconnect` (lines 419-450): mark the user offline (the
pre-update document decides the `if (user)` branch), strip it from every room
member map and announce the departure when it existed, then always clear the
typing entry and broadcast the refreshed user and typing lists.  Catch
block: log only, no emission. -/
def disconnectH (db : DB) (typing : List (String × String)) (sid : String)
    (now : Nat) (storeFail : Bool) :
    DB × List (String × String) × List Emit :=
  if storeFail then (db, typing, [])
  else
    let found := db.users.find? (fun u => u.socketId = sid)
    let users1 := updateFirst (fun u => u.socketId = sid)
      (fun u => { u with isOnline := false, lastSeen := now }) db.users
    let typing1 := removeKey typing sid
    match found with
    | some u =>
        let rooms1 := db.rooms.map (stripMember sid)
        let online := users1.filter (fun v => v.isOnline)
        ({ db with users := users1, rooms := rooms1 }, typing1,
         [(Target.toAll, Event.userLeft u.username sid),
          (Target.toAll, Event.notification "user_left"
            (u.username ++ " left the chat") none),
          (Target.toAll, Event.userList online),
          (Target.toAll, Event.typingUsers (typing1.map Prod.snd))])
    | none =>
        let online := users1.filter (fun v => v.isOnline)
        ({ db with users := users1 }, typing1,
         [(Target.toAll, Event.userList online),
          (Target.toAll, Event.typingUsers (typing1.map Prod.snd))])

/-! ### REST pagination route and JS integer parsing -/

/-- Model of `parseInt(s)` for decimal inputs: skip leading whitespace, read an
optional sign and then the longest digit prefix; `none` models `NaN` (no
digit found).  The hexadecimal `0x` form is outside the model and unused. -/
def parseIntJS (s : String) : Option Int :=
  let trimmed := s.data.dropWhile isJsSpace
  let (neg, rest) :=
    match trimmed with
    | '-' :: t => (true, t)
    | '+' :: t => (false, t)
    | t => (false, t)
  let digits := rest.takeWhile Char.isDigit
  if digits.isEmpty then none
  else
    let n : Nat := digits.foldl (fun acc c => acc * 10 + (c.toNat - 48)) 0
    some (if neg then -(n : Int) else (n : Int))

/-- Response of `GET /api/messages`. -/
inductive ApiResp
  | ok (p : Page)
  | serverError (error : String)
deriving DecidableEq

/-- Route `GET /api/messages` (lines 470-492): defaults applied for absent query
parameters, `parseInt` on offset and limit, then the store query.  MongoDB
rejects a negative or non-numeric `skip` (and a non-numeric `limit`); the
raised store error is caught and answered as a 500 "Failed to fetch
messages".  A negative `limit` is Mongo shorthand for a single batch of the
absolute value, modelled through `natAbs`. -/
def apiMessages (db : DB) (offsetQ limitQ roomQ : Option String) : ApiResp :=
  let room := roomQ.getD "general"
  let skip : Option Int :=
    match offsetQ with
    | none => some 0
    | some s => parseIntJS s
  let take : Option Int :=
    match limitQ with
    | none => some 50
    | some s => parseIntJS s
  match skip, take with
  | some sk, some tk =>
      if sk < 0 then ApiResp.serverError "Failed to fetch messages"
      else
        let filtered := db.messages.filter (fun m => m.room = room)
        let sorted := sortDesc filtered
        ApiResp.ok
          { messages := ((sorted.drop sk.toNat).take tk.natAbs).reverse
            hasMore := decide (sk + tk < (filtered.length : Int))
            total := filtered.length }
  | _, _ => ApiResp.serverError "Failed to fetch messages"

/-! ### Concrete fixtures used by counterexamples and witnesses -/

/-- Builder for a plain text message record with the given id, timestamp,
room, text and sender. -/
def mkM (i ts : Nat) (room text sender : String) : Msg :=
  { mid := i, sender := sender, senderId := "c1", message := text,
    room := room, fileName := none, fileUrl := none, fileType := none,
    isFile := false, isPrivate := false, recipient := none, delivered := true,
    read := false, reactions := [], timestamp := ts }

/-- A room "a" whose member map holds connection "c1". -/
def roomA : Room :=
  { roomId := "a", name := "A", description := "", users := [("c1", "alice")],
    messageCount := 0, isPrivate := false, createdBy := "system",
    createdAt := 0 }

/-- The default room "general" with an empty member map. -/
def genRoom : Room :=
  { roomId := "general", name := "General", description := "", users := [],
    messageCount := 0, isPrivate := false, createdBy := "system",
    createdAt := 0 }

/-- Connection "c1" bound to user alice, currently in room "a". -/
def alice : User :=
  { socketId := "c1", username := "alice", currentRoom := "a",
    isOnline := true, lastSeen := 0, unreadCount := 0 }

/-- Connection "c2" bound to user bob, currently in room "general". -/
def bob : User :=
  { socketId := "c2", username := "bob", currentRoom := "general",
    isOnline := true, lastSeen := 0, unreadCount := 0 }

/-- A database where alice is the sole member of room "a". -/
def dbA : DB := { users := [alice], rooms := [roomA], messages := [], nextId := 0 }

/-- A database with alice and bob and the default room "general". -/
def dbG : DB :=
  { users := [alice, bob], rooms := [genRoom], messages := [], nextId := 0 }

/-- An empty database. -/
def dbEmpty : DB := { users := [], rooms := [], messages := [], nextId := 0 }

/-- A database holding one persisted message in room "general". -/
def dbM8 : DB :=
  { users := [], rooms := [genRoom], messages := [mkM 0 0 "general" "hi" "alice"],
    nextId := 1 }

/-- One hundred and twenty messages in room "r", timestamps 119 down to 0. -/
def msgs120 : List Msg := (List.range 120).map (fun i => mkM i (119 - i) "r" "m" "s")

/-- A message whose text is "x" and sender is "y": neither contains a dot. -/
def msgDot : Msg := mkM 0 0 "general" "x" "y"

/-- A message with text "Hello there" sent by user "Hello123". -/
def msgHello : Msg := mkM 1 1 "general" "Hello there" "Hello123"

/-- The messageCount of the first room record with the given id. -/
def messageCountOf (db : DB) (r : String) : Option Nat :=
  (db.rooms.find? (fun rm => rm.roomId = r)).map Room.messageCount

/-- The number of persisted messages carrying the given room id. -/
def countInRoom (msgs : List Msg) (r : String) : Nat :=
  (msgs.filter (fun m => m.room = r)).length

/-- The PCRE metacharacters; a query avoiding all of them is interpreted by
the search regex exactly as a literal substring. -/
def regexMetaChars : List Char :=
  ['\\', '^', '$', '.', '|', '?', '*', '+', '(', ')', '[', ']', '\x7b', '\x7d']

/-- Is this emission a `new_message_notification`? -/
def isNotifEmit (e : Emit) : Bool :=
  match e.2 with
  | Event.newMessageNotification _ _ _ _ _ => true
  | _ => false

/-- The message record `private_message` persists: `isPrivate`, `recipient`
set, and the `room` key absent so the schema default "general" applies. -/
def pmSaved (db : DB) (sid toSid text : String) (now : Nat) : Msg :=
  { mid := db.nextId, sender := usernameOf db sid, senderId := sid,
    message := text, room := "general", fileName := none, fileUrl := none,
    fileType := none, isFile := false, isPrivate := true,
    recipient := some toSid, delivered := true, read := false,
    reactions := [], timestamp := now }

/-- The file message `share_file` persists in the dbG fixture scenario. -/
def fileMsg9 : Msg :=
  { mid := 0, sender := "alice", senderId := "c1", message := "",
    room := "general", fileName := some "f.txt", fileUrl := some "u",
    fileType := some "t", isFile := true, isPrivate := false,
    recipient := none, delivered := true, read := false, reactions := [],
    timestamp := 5 }

/-! ### Helper lemmas -/

/-- updateFirst is the identity when nothing satisfies the predicate. -/
theorem updateFirst_of_forall_not {α : Type} {p : α → Bool} {f : α → α} :
    ∀ l : List α, (∀ x ∈ l, p x = false) → updateFirst p f l = l
  | [], _ => rfl
  | x :: xs, h => by
      have hx := h x (List.mem_cons_self x xs)
      simp only [updateFirst, hx, Bool.false_eq_true, if_false]
      rw [updateFirst_of_forall_not xs (fun y hy => h y (List.mem_cons_of_mem _ hy))]

/-- stripMember never changes the room id. -/
theorem stripMember_roomId (sid : String) (r : Room) :
    (stripMember sid r).roomId = r.roomId := by
  unfold stripMember
  split <;> rfl

/-! ### Claim C3 -/

/-- Claim C3, counterexample: a store failure inside the `add_reaction`
handler leaves the database untouched and emits nothing at all — in
particular no `error` event reaches the originating connection, contrary to
the claim that every handler surfaces store failures as an error event. -/
theorem claim_C3_counterexample : addReaction dbG "c1" 99 "x" true = (dbG, []) := rfl

/-- Claim C3 as amended: when a persistent-store call inside a handler
fails, the originating connection receives a generic `error` event from
`user_join`, `send_message`, `create_room`, `join_room`, `private_message`,
`share_file`, `load_messages` and `search_messages`; the `add_reaction`,
`message_read`, `typing` and `disconnect` handlers instead log the failure
and emit nothing. -/
theorem claim_C3 (db : DB) (typing : List (String × String))
    (sid username text toSid fname furl ftype q name : String)
    (room roomId : Option String) (mid now offset limit : Nat)
    (isTyping : Bool) (sockets : List (String × String)) :
    (userJoin db sid username now true).2 =
      [(Target.toSocket sid, Event.errorEv "Failed to join chat")] ∧
    (sendMessage db sid text room now true).2 =
      [(Target.toSocket sid, Event.errorEv "Failed to send message")] ∧
    (createRoom db sid name now true).2 =
      [(Target.toSocket sid, Event.errorEv "Failed to create room")] ∧
    (joinRoom db sid name true).2 =
      [(Target.toSocket sid, Event.errorEv "Failed to join room")] ∧
    (privateMessage db sid toSid text now true).2 =
      [(Target.toSocket sid, Event.errorEv "Failed to send private message")] ∧
    (shareFile db sid sockets fname furl ftype room now true).2 =
      [(Target.toSocket sid, Event.errorEv "Failed to share file")] ∧
    loadMessages db sid offset limit roomId true =
      [(Target.toSocket sid, Event.errorEv "Failed to load messages")] ∧
    searchMessages db sid q roomId true =
      [(Target.toSocket sid, Event.errorEv "Failed to search messages")] ∧
    (typingH db typing sid isTyping true).2 = [] ∧
    (addReaction db sid mid text true).2 = [] ∧
    (messageRead db sid mid true).2 = [] ∧
    (disconnectH db typing sid now true).2.2 = [] :=
  ⟨rfl, rfl, rfl, rfl, rfl, rfl, rfl, rfl, rfl, rfl, rfl, rfl⟩

/-! ### Claim C7 -/

/-- Claim C7, confirmed: reacting to a messageId that identifies no stored
message raises no error, leaves every stored message (and the whole
database) unchanged, and still broadcasts `reaction_added` with the given
messageId, reaction and reacting connection id to all connections. -/
theorem claim_C7 (db : DB) (sid : String) (mid : Nat) (reaction : String)
    (h : ∀ m ∈ db.messages, m.mid ≠ mid) :
    addReaction db sid mid reaction false =
      (db, [(Target.toAll, Event.reactionAdded mid reaction sid)]) := by
  unfold addReaction
  have hu : updateFirst (fun m => m.mid = mid)
      (fun m => { m with reactions := setKey m.reactions sid reaction })
      db.messages = db.messages :=
    updateFirst_of_forall_not _ (fun m hm => by simp [h m hm])
  simp [hu]

/-- Witness for claim C7 at a concrete input: the dbG fixture stores no
message with id 99. -/
theorem claim_C7_witness :
    (∀ m ∈ dbG.messages, m.mid ≠ 99) ∧
    addReaction dbG "c1" 99 "x" false =
      (dbG, [(Target.toAll, Event.reactionAdded 99 "x" "c1")]) :=
  ⟨by decide, claim_C7 dbG "c1" 99 "x" (by decide)⟩

/-! ### Claim C1 -/

/-- Claim C1, counterexample: in dbA connection "c1" is a member of room "a"
and no room "b" exists; handling join_room("b") nevertheless removes "c1"
from the member map of "a" and rewrites the user currentRoom to "b" (while
indeed emitting neither a confirmation nor an error), so the membership
state is NOT left unchanged as the claim asserts. -/
theorem claim_C1_counterexample :
    hasKey roomA.users "c1" = true ∧
    (∀ r ∈ dbA.rooms, r.roomId ≠ "b") ∧
    (joinRoom dbA "c1" "b" false).2 = [] ∧
    (joinRoom dbA "c1" "b" false).1.rooms = [{ roomA with users := [] }] ∧
    (joinRoom dbA "c1" "b" false).1.users = [{ alice with currentRoom := "b" }] ∧
    (joinRoom dbA "c1" "b" false).1.rooms ≠ dbA.rooms ∧
    (joinRoom dbA "c1" "b" false).1.users ≠ dbA.users := by
  refine ⟨rfl, by decide, rfl, by decide, by decide, by decide, by decide⟩

/-- Claim C1 as amended: joining a nonexistent room B still strips the
connection from every room member map where it appears and sets the user
currentRoom to B; it adds the connection to no room and emits neither a
`room_joined` confirmation nor an `error` event. -/
theorem claim_C1 (db : DB) (sid roomId : String)
    (h : ∀ r ∈ db.rooms, r.roomId ≠ roomId) :
    joinRoom db sid roomId false =
      ({ db with rooms := db.rooms.map (stripMember sid),
                 users := updateFirst (fun u => u.socketId = sid)
                   (fun u => { u with currentRoom := roomId }) db.users },
       []) := by
  have hnone : (db.rooms.map (stripMember sid)).find?
      (fun r => r.roomId = roomId) = none := by
    rw [List.find?_map]
    refine Option.map_eq_none'.mpr ?_
    rw [List.find?_eq_none]
    intro r hr
    simp only [Function.comp_apply, stripMember_roomId]
    simp [h r hr]
  unfold joinRoom
  simp [hnone]

/-- Witness for claim C1 at a concrete input: dbA has no room "b". -/
theorem claim_C1_witness :
    (∀ r ∈ dbA.rooms, r.roomId ≠ "b") ∧
    joinRoom dbA "c1" "b" false =
      ({ dbA with rooms := dbA.rooms.map (stripMember "c1"),
                  users := updateFirst (fun u => u.socketId = "c1")
                    (fun u => { u with currentRoom := "b" }) dbA.users },
       []) :=
  ⟨by decide, claim_C1 dbA "c1" "b" (by decide)⟩

/-! ### Claim C5 -/

/-- Helper: a `find?` miss on the first list passes through an append. -/
theorem find?_append_of_eq_none {α : Type} {p : α → Bool} (l1 l2 : List α)
    (h : l1.find? p = none) : (l1 ++ l2).find? p = l2.find? p := by
  rw [List.find?_append, h, Option.none_or]

/-- Claim C5, confirmed: the derived roomId lower-cases the name and turns
each whitespace run into one separator (so "General" becomes "general");
starting from a state with no room under that id, the first `create_room`
creates exactly one such room, and repeating the call changes nothing and
emits nothing (no duplicate, no error, no broadcast). -/
theorem claim_C5 (db : DB) (sid name : String) (now1 now2 : Nat)
    (h : ∀ r ∈ db.rooms, r.roomId ≠ slugify name) :
    slugify "General" = "general" ∧
    createRoom (createRoom db sid name now1 false).1 sid name now2 false =
      ((createRoom db sid name now1 false).1, []) ∧
    ((createRoom db sid name now1 false).1.rooms.filter
      (fun r => r.roomId = slugify name)).length = 1 := by
  have hfind : db.rooms.find? (fun r => r.roomId = slugify name) = none := by
    rw [List.find?_eq_none]
    intro r hr
    simp [h r hr]
  have hnil : db.rooms.filter (fun r => r.roomId = slugify name) = [] :=
    List.filter_eq_nil_iff.mpr (fun r hr => by simp [h r hr])
  refine ⟨by decide, ?_, ?_⟩
  · unfold createRoom
    simp only [Bool.false_eq_true, if_false, hfind]
    rw [find?_append_of_eq_none _ _ hfind]
    simp [List.find?]
  · unfold createRoom
    simp only [Bool.false_eq_true, if_false, hfind]
    simp [List.filter_append, hnil]

/-- Witness for claim C5 at a concrete input: two create_room("General")
calls on the empty database. -/
theorem claim_C5_witness :
    (∀ r ∈ dbEmpty.rooms, r.roomId ≠ slugify "General") ∧
    (slugify "General" = "general" ∧
     createRoom (createRoom dbEmpty "c1" "General" 1 false).1 "c1" "General" 2 false =
       ((createRoom dbEmpty "c1" "General" 1 false).1, []) ∧
     ((createRoom dbEmpty "c1" "General" 1 false).1.rooms.filter
       (fun r => r.roomId = slugify "General")).length = 1) :=
  ⟨by decide, claim_C5 dbEmpty "c1" "General" 1 2 (by decide)⟩

/-! ### Claim C2 -/

/-- Helper: `find?` after `updateFirst` on the same predicate sees the
rewritten element, provided the rewrite preserves the predicate. -/
theorem find?_updateFirst {α : Type} (p : α → Bool) (f : α → α)
    (hf : ∀ x, p x = true → p (f x) = true) :
    ∀ l : List α, (updateFirst p f l).find? p = (l.find? p).map f
  | [] => rfl
  | x :: xs => by
      cases hx : p x with
      | true =>
          simp only [updateFirst, hx, if_true, List.find?_cons, hf x hx,
            Option.map_some']
      | false =>
          simp only [updateFirst, hx, Bool.false_eq_true, if_false,
            List.find?_cons, find?_updateFirst p f hf xs]

/-- Helper: appending a message of room `r` bumps the room count by one. -/
theorem countInRoom_append_one (l : List Msg) (m : Msg) (r : String)
    (hm : m.room = r) : countInRoom (l ++ [m]) r = countInRoom l r + 1 := by
  simp [countInRoom, List.filter_append, hm]

/-- Claim C2, counterexample: in dbG (room "general", messageCount 0, no
messages) one share_file persists a message with room "general" yet leaves
messageCount at 0, so messageCount does not equal the number of messages
ever created with that room. -/
theorem claim_C2_counterexample :
    countInRoom (shareFile dbG "c1" [("c1", "s"), ("c2", "s")] "f.txt" "u" "t"
      none 5 false).1.messages "general" = 1 ∧
    messageCountOf (shareFile dbG "c1" [("c1", "s"), ("c2", "s")] "f.txt" "u" "t"
      none 5 false).1 "general" = some 0 := by
  exact ⟨by decide, by decide⟩

/-- Claim C2 as amended: only send_message maintains the counter — it adds
one message with the target room and bumps the messageCount of the first
room record under that id by exactly one; share_file and private_message
add their message (share_file to the given room or "general",
private_message always to "general") while leaving every room record, hence
every messageCount, unchanged.  messageCount therefore counts only the
messages created through send_message. -/
theorem claim_C2 (db : DB) (sid text fname furl ftype toSid : String)
    (room : Option String) (now : Nat) (sockets : List (String × String)) :
    countInRoom (sendMessage db sid text room now false).1.messages
        (room.getD "general") =
      countInRoom db.messages (room.getD "general") + 1 ∧
    messageCountOf (sendMessage db sid text room now false).1
        (room.getD "general") =
      (messageCountOf db (room.getD "general")).map (· + 1) ∧
    countInRoom (shareFile db sid sockets fname furl ftype room now
        false).1.messages (room.getD "general") =
      countInRoom db.messages (room.getD "general") + 1 ∧
    (shareFile db sid sockets fname furl ftype room now false).1.rooms =
      db.rooms ∧
    countInRoom (privateMessage db sid toSid text now false).1.messages
        "general" =
      countInRoom db.messages "general" + 1 ∧
    (privateMessage db sid toSid text now false).1.rooms = db.rooms := by
  refine ⟨?_, ?_, ?_, rfl, ?_, rfl⟩
  · exact countInRoom_append_one db.messages _ _ rfl
  · unfold sendMessage messageCountOf
    simp only [Bool.false_eq_true, if_false]
    rw [find?_updateFirst (fun rm => rm.roomId = room.getD "general")
      (fun r => { r with messageCount := r.messageCount + 1 })
      (fun _ hr => hr) db.rooms]
    cases db.rooms.find? (fun rm => rm.roomId = room.getD "general") <;> rfl
  · exact countInRoom_append_one db.messages _ _ rfl
  · exact countInRoom_append_one db.messages _ _ rfl

/-! ### Claim C4 -/

set_option maxRecDepth 8000 in
/-- Claim C4, confirmed: `page` returns at most `limit` messages, namely
the window taken after skipping `offset` of the timestamp-descending order
and then reversed to chronological (ascending-timestamp) order, and
`hasMore` holds exactly when `offset + limit` is below the number of
messages in the room; at the claimed boundary, with 120 messages,
page(r, 100, 50) returns the remaining 20 with hasMore = false and
page(r, 0, 50) returns 50 with hasMore = true. -/
theorem claim_C4 :
    (∀ (msgs : List Msg) (roomId : Option String) (offset limit : Nat),
      (page msgs roomId offset limit).messages.length ≤ limit ∧
      ((page msgs roomId offset limit).hasMore = true ↔
        offset + limit < (msgs.filter (roomFilter roomId)).length) ∧
      (page msgs roomId offset limit).messages =
        (((sortDesc (msgs.filter (roomFilter roomId))).drop offset).take
          limit).reverse ∧
      List.Sorted (fun a b => a.timestamp ≤ b.timestamp)
        (page msgs roomId offset limit).messages) ∧
    (page msgs120 (some "r") 100 50).messages.length = 20 ∧
    (page msgs120 (some "r") 100 50).hasMore = false ∧
    (page msgs120 (some "r") 0 50).messages.length = 50 ∧
    (page msgs120 (some "r") 0 50).hasMore = true := by
  refine ⟨?_, by decide, by decide, by decide, by decide⟩
  intro msgs roomId offset limit
  refine ⟨?_, ?_, rfl, ?_⟩
  · simp only [page, List.length_reverse]
    exact List.length_take_le limit _
  · simp [page]
  · have hs : List.Sorted tsDesc (sortDesc (msgs.filter (roomFilter roomId))) :=
      List.sorted_insertionSort tsDesc _
    have hdt : List.Sorted tsDesc
        (((sortDesc (msgs.filter (roomFilter roomId))).drop offset).take limit) :=
      List.Pairwise.sublist
        ((List.take_sublist _ _).trans (List.drop_sublist _ _)) hs
    show List.Sorted (fun a b => a.timestamp ≤ b.timestamp)
      (((sortDesc (msgs.filter (roomFilter roomId))).drop offset).take limit).reverse
    exact List.pairwise_reverse.mpr hdt

/-! ### Claim C6 -/

/-- Helper: on all-literal patterns the matcher tests a lower-cased
prefix. -/
theorem tokMatchesAt_lit : ∀ (as cs : List Char),
    tokMatchesAt (as.map RTok.lit) cs =
      startsWithChars (as.map Char.toLower) (cs.map Char.toLower)
  | [], [] => rfl
  | [], _ :: _ => rfl
  | _ :: _, [] => rfl
  | a :: as, c :: cs => by
      simp [tokMatchesAt, startsWithChars, tokMatchesAt_lit as cs]

/-- Helper: on all-literal patterns the unanchored regex search is exactly
lower-cased substring occurrence. -/
theorem regexSearch_lit : ∀ (as cs : List Char),
    regexSearch (as.map RTok.lit) cs =
      occursIn (as.map Char.toLower) (cs.map Char.toLower)
  | [], [] => rfl
  | _ :: _, [] => rfl
  | as, c :: cs => by
      simp [regexSearch, occursIn, tokMatchesAt_lit, regexSearch_lit as cs]

/-- Helper: a query with no regex metacharacter parses to literals only. -/
theorem parsePattern_no_meta (q : String)
    (h : ∀ c ∈ q.data, c ∉ regexMetaChars) :
    parsePattern q = q.data.map RTok.lit := by
  unfold parsePattern
  apply List.map_congr_left
  intro c hc
  have hdot : c ≠ '.' := by
    intro e
    exact h c hc (by rw [e]; decide)
  simp [hdot]

/-- Helper: for metacharacter-free queries the regex test of the handlers
coincides with case-insensitive substring containment. -/
theorem regexTest_eq_containsCI (q s : String)
    (h : ∀ c ∈ q.data, c ∉ regexMetaChars) :
    regexTest q s = containsCI s q := by
  unfold regexTest containsCI
  rw [parsePattern_no_meta q h, regexSearch_lit]

/-- Claim C6, counterexample: the handlers interpret the query as a regular
expression, not as a literal substring.  For the query "." on a store with
one message of text "x" from sender "y", the code returns that message even
though "." is a case-insensitive substring of neither its text nor its
sender name, while the substring reading of the claim returns nothing. -/
theorem claim_C6_counterexample :
    searchQuery [msgDot] "." none = [msgDot] ∧
    containsCI msgDot.message "." = false ∧
    containsCI msgDot.sender "." = false ∧
    specSearch [msgDot] "." none = [] := by
  exact ⟨by decide, by decide, by decide, by decide⟩

/-- Claim C6 as amended: the query is passed to the store as a
case-insensitive unanchored regular expression; for every query containing
no regex metacharacter this returns exactly the messages whose text or
sender name contains the query as a case-insensitive substring (optionally
restricted to a room), sorted by timestamp descending and capped at 50 —
in particular "hello" matches text "Hello there" and sender "Hello123". -/
theorem claim_C6 (msgs : List Msg) (q : String) (roomId : Option String)
    (h : ∀ c ∈ q.data, c ∉ regexMetaChars) :
    searchQuery msgs q roomId = specSearch msgs q roomId ∧
    (searchQuery msgs q roomId).length ≤ 50 ∧
    List.Sorted tsDesc (searchQuery msgs q roomId) ∧
    containsCI "Hello there" "hello" = true ∧
    containsCI "Hello123" "hello" = true := by
  refine ⟨?_, ?_, ?_, by decide, by decide⟩
  · unfold searchQuery specSearch
    have hfil : msgs.filter (searchFilterB q roomId) =
        msgs.filter (fun m =>
          (containsCI m.message q || containsCI m.sender q) &&
            roomFilter roomId m) := by
      apply List.filter_congr
      intro m _
      simp [searchFilterB, regexTest_eq_containsCI _ _ h]
    rw [hfil]
  · exact List.length_take_le 50 _
  · exact List.Pairwise.sublist (List.take_sublist 50 _)
      (List.sorted_insertionSort tsDesc _)

/-- Witness for claim C6 at a concrete input: the query "hello" has no
metacharacter, run against a store holding msgHello. -/
theorem claim_C6_witness :
    (∀ c ∈ "hello".data, c ∉ regexMetaChars) ∧
    (searchQuery [msgHello] "hello" none = specSearch [msgHello] "hello" none ∧
     (searchQuery [msgHello] "hello" none).length ≤ 50 ∧
     List.Sorted tsDesc (searchQuery [msgHello] "hello" none) ∧
     containsCI "Hello there" "hello" = true ∧
     containsCI "Hello123" "hello" = true) :=
  ⟨by decide, claim_C6 [msgHello] "hello" none (by decide)⟩

/-! ### Claim C8 -/

/-- Claim C8, evaluating the code at the failing inputs: the route performs
no clamping at all.  A negative offset string "-5" (and a non-numeric
"abc") flows through parseInt into the store skip, the store rejects it,
and the caught error is answered as a 500 failure body instead of the
clamped page the claim requires; a well-formed request on the same store
succeeds, showing only the coercion path is at fault. -/
theorem claim_C8 :
    apiMessages dbM8 (some "-5") (some "50") (some "general") =
      ApiResp.serverError "Failed to fetch messages" ∧
    apiMessages dbM8 (some "abc") none none =
      ApiResp.serverError "Failed to fetch messages" ∧
    apiMessages dbM8 none none none =
      ApiResp.ok { messages := [mkM 0 0 "general" "hi" "alice"],
                   hasMore := false, total := 1 } := by
  exact ⟨by decide, by decide, by decide⟩

/-! ### Claim C9 -/

/-- Claim C9, evaluating the code: the `receive_message` broadcast to all
connections happens, but the notification loop iterates over
`Object.keys` of the socket `Map`, which is empty, so no connection ever
receives a `new_message_notification` — shown generally (the emission list
is always broadcast-then-delivery-receipt with zero notifications) and at
the concrete dbG input where connection "c2" ≠ "c1" is connected. -/
theorem claim_C9 (db : DB) (sid : String) (sockets : List (String × String))
    (fname furl ftype : String) (room : Option String) (now : Nat) :
    (shareFile db sid sockets fname furl ftype room now false).2.filter
      isNotifEmit = [] ∧
    (shareFile db sid sockets fname furl ftype room now false).2.map
      Prod.fst = [Target.toAll, Target.toSocket sid] ∧
    (shareFile dbG "c1" [("c1", "s"), ("c2", "s")] "f.txt" "u" "t" none 5
      false).2 =
      [(Target.toAll, Event.receiveMessage fileMsg9),
       (Target.toSocket "c1", Event.messageDelivered 0)] := by
  refine ⟨?_, ?_, by decide⟩
  · simp [shareFile, jsObjectKeysOfMap, isNotifEmit]
  · simp [shareFile, jsObjectKeysOfMap]

/-! ### Claim C10 -/

/-- Claim C10, confirmed: the message persisted by private_message is
appended with room "general" (the schema default, since the handler omits
the room key); it therefore satisfies the room filter used by the
pagination of room "general" and appears in its full pagination window, and
the search filter reduces to the text/sender match alone both for a search
with no room constraint and for one constrained to "general" — no room
constraint other than a different room ever excludes it. -/
theorem claim_C10 (db : DB) (sid toSid text : String) (now : Nat) :
    (privateMessage db sid toSid text now false).1.messages =
      db.messages ++ [pmSaved db sid toSid text now] ∧
    (pmSaved db sid toSid text now).room = "general" ∧
    roomFilter (some "general") (pmSaved db sid toSid text now) = true ∧
    pmSaved db sid toSid text now ∈
      (page (privateMessage db sid toSid text now false).1.messages
        (some "general") 0
        (privateMessage db sid toSid text now false).1.messages.length).messages ∧
    (∀ q, searchFilterB q none (pmSaved db sid toSid text now) =
      (regexTest q text || regexTest q (usernameOf db sid))) ∧
    (∀ q, searchFilterB q (some "general") (pmSaved db sid toSid text now) =
      (regexTest q text || regexTest q (usernameOf db sid))) := by
  refine ⟨rfl, rfl, rfl, ?_, ?_, ?_⟩
  · set pm := pmSaved db sid toSid text now with hpm
    have hmsgs : (privateMessage db sid toSid text now false).1.messages =
        db.messages ++ [pm] := rfl
    rw [hmsgs]
    set msgs1 := db.messages ++ [pm]
    have hmem : pm ∈ msgs1.filter (roomFilter (some "general")) := by
      refine List.mem_filter.mpr ⟨?_, rfl⟩
      exact List.mem_append_right _ (List.mem_singleton.mpr rfl)
    have hlen : (sortDesc (msgs1.filter (roomFilter (some "general")))).length ≤
        msgs1.length := by
      simp only [sortDesc]
      rw [List.length_insertionSort]
      exact List.length_filter_le _ _
    show pm ∈ (((sortDesc (msgs1.filter (roomFilter (some "general")))).drop
      0).take msgs1.length).reverse
    rw [List.drop_zero, List.take_of_length_le hlen, List.mem_reverse]
    exact ((List.perm_insertionSort tsDesc _).mem_iff).mpr hmem
  · intro q
    simp [searchFilterB, roomFilter, pmSaved]
  · intro q
    simp [searchFilterB, roomFilter, pmSaved]

end Chat
